import Mathlib

/-!
Verification development for the Particle-Testing repository.

The repository is a hand-gesture driven particle system.  The gesture
pipeline lives in src/components/HandTracker.tsx: a tension estimator
(calculateTension), a rule-based gesture classifier (detectGesture), an
anchor extractor (getGesturePositions) and the per-frame detection entry
point (processDetections).  The particle side lives in the ParticleSystem
component of the same file: a per-frame hand-data effect updating smoothed
tension, the previous-tension register and the explosion impulse, an
animation-loop block copying gesture data into shader uniforms, and a GLSL
vertex shader computing each displayed particle position.

The development below is a shallow embedding of those functions over the
real numbers.  JavaScript and GLSL numbers are modelled as real numbers;
JavaScript booleans as Bool or as decidable propositions; GLSL
normalize, whose result is undefined on the zero vector, is modelled as an
Option-valued function, and the shader position computation propagates
that partiality.  A second family of definitions, suffixed JS, models the
same tracker source lines at the level of JavaScript array access, where
reading a missing array element yields undefined and the following member
access throws: such a read is modelled as Option.
-/

/-- A 3D point or vector, as used both for hand landmarks (objects with
x, y, z fields) and for GLSL vec3 values. -/
structure Point3 where
  x : ℝ
  y : ℝ
  z : ℝ

noncomputable instance : Add Point3 := ⟨fun p q => ⟨p.x + q.x, p.y + q.y, p.z + q.z⟩⟩

noncomputable instance : Sub Point3 := ⟨fun p q => ⟨p.x - q.x, p.y - q.y, p.z - q.z⟩⟩

noncomputable instance : SMul ℝ Point3 := ⟨fun c p => ⟨c * p.x, c * p.y, c * p.z⟩⟩

/-- The six gesture states of src/types.ts (type GestureType). -/
inductive GestureType where
  | none
  | point
  | pinch
  | palm_up
  | palm_down
  | peace
deriving DecidableEq, Repr

open Classical

/-- A landmark set: 21 fixed-role 3D points, indexed as by MediaPipe
(0 wrist, 4 thumb tip, 8 index tip, 9 middle base, 12 middle tip,
16 ring tip, 20 pinky tip, and so on). -/
def Hand : Type := Fin 21 → Point3

/-- Build a landmark set from a list, defaulting missing entries to the
origin; used only to write down concrete test hands. -/
def mkHand (l : List Point3) : Hand := fun i => l.getD i.val ⟨0, 0, 0⟩

/-- distance3D of HandTracker.tsx lines 118-124: Euclidean distance
between two landmarks. -/
noncomputable def dist3 (p1 p2 : Point3) : ℝ :=
  Real.sqrt ((p1.x - p2.x) ^ 2 + (p1.y - p2.y) ^ 2 + (p1.z - p2.z) ^ 2)

/-- isFingerExtended of HandTracker.tsx lines 127-132: a finger is
extended iff the base-to-tip distance exceeds 0.04. -/
noncomputable def isFingerExtended (lm : Hand) (fingerBase fingerTip : Fin 21) : Prop :=
  dist3 (lm fingerBase) (lm fingerTip) > 0.04

noncomputable instance (lm : Hand) (b t : Fin 21) : Decidable (isFingerExtended lm b t) := by
  unfold isFingerExtended
  infer_instance

/-- Closed-reference calibration constant of calculateTension (tight fist,
line 107). -/
noncomputable def closedValue : ℝ := 0.80

/-- Open-reference calibration constant of calculateTension (fully open
hand, line 108). -/
noncomputable def openValue : ℝ := 1.75

/-- The five wrist-to-fingertip distances of calculateTension lines 83-89. -/
noncomputable def fingertipDistances (lm : Hand) : List ℝ :=
  [lm 4, lm 8, lm 12, lm 16, lm 20].map fun tip =>
    Real.sqrt (((lm 0).x - tip.x) ^ 2 + ((lm 0).y - tip.y) ^ 2 + ((lm 0).z - tip.z) ^ 2)

/-- Average wrist-to-fingertip distance, calculateTension line 91. -/
noncomputable def avgDistance (lm : Hand) : ℝ :=
  (fingertipDistances lm).foldl (· + ·) 0 / ((fingertipDistances lm).length : ℝ)

/-- Palm size: wrist to middle-finger base distance, lines 94-99. -/
noncomputable def palmSize (lm : Hand) : ℝ :=
  Real.sqrt (((lm 0).x - (lm 9).x) ^ 2 + ((lm 0).y - (lm 9).y) ^ 2 + ((lm 0).z - (lm 9).z) ^ 2)

/-- Normalized average distance, line 102. -/
noncomputable def normalizedDist (lm : Hand) : ℝ := avgDistance lm / palmSize lm

/-- calculateTension of HandTracker.tsx lines 70-115: map the normalized
average linearly from the open reference to the closed reference onto
[0,1] and clamp. -/
noncomputable def calculateTension (lm : Hand) : ℝ :=
  max 0 (min 1 ((openValue - normalizedDist lm) / (openValue - closedValue)))

/-- detectGesture of HandTracker.tsx lines 135-184: the priority-ordered
rule ladder peace, point, pinch, palm orientation, none. -/
noncomputable def detectGesture (lm : Hand) (tension : ℝ) : GestureType :=
  let thumbTip := lm 4
  let indexTip := lm 8
  let middleTip := lm 12
  let ringTip := lm 16
  let pinkyTip := lm 20
  let thumbExt := isFingerExtended lm 2 4
  let indexExt := isFingerExtended lm 5 8
  let middleExt := isFingerExtended lm 9 12
  let ringExt := isFingerExtended lm 13 16
  let pinkyExt := isFingerExtended lm 17 20
  let extendedCount : ℕ :=
    (if thumbExt then 1 else 0) + (if indexExt then 1 else 0) + (if middleExt then 1 else 0) +
      (if ringExt then 1 else 0) + (if pinkyExt then 1 else 0)
  if indexExt ∧ middleExt ∧ ¬ringExt ∧ ¬pinkyExt ∧ tension < 0.5 then
    GestureType.peace
  else if indexExt ∧ ¬middleExt ∧ ¬ringExt ∧ ¬pinkyExt ∧ tension > 0.4 then
    GestureType.point
  else if dist3 thumbTip indexTip < 0.08 ∧ tension > 0.6 then
    GestureType.pinch
  else if extendedCount ≥ 4 ∧ tension < 0.3 then
    let avgY := (indexTip.y + middleTip.y + ringTip.y + pinkyTip.y) / 4
    let thumbY := thumbTip.y
    if avgY > thumbY + 0.1 then GestureType.palm_down
    else if avgY < thumbY - 0.1 then GestureType.palm_up
    else GestureType.none
  else GestureType.none

/-- The gesture-specific anchor fields produced by getGesturePositions
(HandTracker.tsx lines 187-209). -/
structure GesturePositions where
  fingerTip : Option Point3 := Option.none
  pinchPosition : Option Point3 := Option.none
  peaceOrbit1 : Option Point3 := Option.none
  peaceOrbit2 : Option Point3 := Option.none

/-- getGesturePositions of HandTracker.tsx lines 187-209. -/
noncomputable def getGesturePositions (lm : Hand) (gesture : GestureType) : GesturePositions :=
  match gesture with
  | GestureType.point => { fingerTip := some (lm 8) }
  | GestureType.pinch =>
      { pinchPosition :=
          some ⟨((lm 4).x + (lm 8).x) / 2, ((lm 4).y + (lm 8).y) / 2, ((lm 4).z + (lm 8).z) / 2⟩ }
  | GestureType.peace => { peaceOrbit1 := some (lm 8), peaceOrbit2 := some (lm 12) }
  | _ => {}

/-- HandTrackingResult of src/types.ts: the record the tracker publishes
every processed frame. -/
structure HandTrackingResult where
  isDetected : Bool
  tension : ℝ
  gesture : GestureType
  fingerTip : Option Point3 := Option.none
  pinchPosition : Option Point3 := Option.none
  palmOrientation : Option Point3 := Option.none
  peaceOrbit1 : Option Point3 := Option.none
  peaceOrbit2 : Option Point3 := Option.none

/-- processDetections of HandTracker.tsx lines 226-245, at the level of
an optional landmark set: with a hand present it publishes the raw
gesture of this frame together with tension and anchors; with no hand it
publishes the fallback record.  The hysteresis refs declared at lines
18-19 are never read or written here: no stabilization happens. -/
noncomputable def processDetections (result : Option Hand) : HandTrackingResult :=
  match result with
  | some landmarks =>
      let tension := calculateTension landmarks
      let gesture := detectGesture landmarks tension
      let gp := getGesturePositions landmarks gesture
      { isDetected := true, tension := tension, gesture := gesture,
        fingerTip := gp.fingerTip, pinchPosition := gp.pinchPosition,
        peaceOrbit1 := gp.peaceOrbit1, peaceOrbit2 := gp.peaceOrbit2 }
  | Option.none => { isDetected := false, tension := 0, gesture := GestureType.none }

/-- The gesture actually published on each frame of a stream of
detection results: processDetections keeps no state between frames. -/
noncomputable def publishedGestures (frames : List (Option Hand)) : List GestureType :=
  frames.map fun f => (processDetections f).gesture

/-- A concrete closed-fist pinch hand, all landmarks on the x-axis:
wrist at the origin, middle-finger base at distance 1, thumb, index,
middle, ring and pinky tips all at distance 0.80 (so the normalized
average distance is exactly the closed reference 0.80), index base equal
to the index tip and thumb tip equal to the index tip. -/
noncomputable def pinchHand : Hand := mkHand
  [⟨0, 0, 0⟩, ⟨0, 0, 0⟩, ⟨0.8, 0, 0⟩, ⟨0, 0, 0⟩, ⟨0.8, 0, 0⟩,
   ⟨0.8, 0, 0⟩, ⟨0, 0, 0⟩, ⟨0, 0, 0⟩, ⟨0.8, 0, 0⟩, ⟨1, 0, 0⟩,
   ⟨0, 0, 0⟩, ⟨0, 0, 0⟩, ⟨0.8, 0, 0⟩, ⟨0.8, 0, 0⟩, ⟨0, 0, 0⟩,
   ⟨0, 0, 0⟩, ⟨0.8, 0, 0⟩, ⟨0.8, 0, 0⟩, ⟨0, 0, 0⟩, ⟨0, 0, 0⟩,
   ⟨0.8, 0, 0⟩]

/-- A concrete pointing hand on the x-axis: index base at 0.8 and tip at
0.9 (extended), middle, ring and pinky tips equal to their bases
(retracted), fingertip distances 0.8, 0.9, 1.0, 0.9, 0.9 so the
normalized average distance is 0.9. -/
noncomputable def pointHand : Hand := mkHand
  [⟨0, 0, 0⟩, ⟨0, 0, 0⟩, ⟨0.8, 0, 0⟩, ⟨0, 0, 0⟩, ⟨0.8, 0, 0⟩,
   ⟨0.8, 0, 0⟩, ⟨0, 0, 0⟩, ⟨0, 0, 0⟩, ⟨0.9, 0, 0⟩, ⟨1, 0, 0⟩,
   ⟨0, 0, 0⟩, ⟨0, 0, 0⟩, ⟨1, 0, 0⟩, ⟨0.9, 0, 0⟩, ⟨0, 0, 0⟩,
   ⟨0, 0, 0⟩, ⟨0.9, 0, 0⟩, ⟨0.9, 0, 0⟩, ⟨0, 0, 0⟩, ⟨0, 0, 0⟩,
   ⟨0.9, 0, 0⟩]

/-- A concrete peace-sign hand on the x-axis: index base at the wrist and
index tip at 0.9 (extended), middle base at 1 and tip at 1.1 (extended),
ring and pinky tips equal to their bases (retracted). -/
noncomputable def peaceHand : Hand := mkHand
  [⟨0, 0, 0⟩, ⟨0, 0, 0⟩, ⟨0, 0, 0⟩, ⟨0, 0, 0⟩, ⟨0, 0, 0⟩,
   ⟨0, 0, 0⟩, ⟨0, 0, 0⟩, ⟨0, 0, 0⟩, ⟨0.9, 0, 0⟩, ⟨1, 0, 0⟩,
   ⟨0, 0, 0⟩, ⟨0, 0, 0⟩, ⟨1.1, 0, 0⟩, ⟨0, 0, 0⟩, ⟨0, 0, 0⟩,
   ⟨0, 0, 0⟩, ⟨0, 0, 0⟩, ⟨0, 0, 0⟩, ⟨0, 0, 0⟩, ⟨0, 0, 0⟩,
   ⟨0, 0, 0⟩]

/-- A concrete hand whose thumb tip is 0.03 from the index tip while the
index finger is extended: index base at 0.9, index tip at 1, thumb tip at
0.97, middle, ring and pinky retracted. -/
noncomputable def pointPinchHand : Hand := mkHand
  [⟨0, 0, 0⟩, ⟨0, 0, 0⟩, ⟨0.97, 0, 0⟩, ⟨0, 0, 0⟩, ⟨0.97, 0, 0⟩,
   ⟨0.9, 0, 0⟩, ⟨0, 0, 0⟩, ⟨0, 0, 0⟩, ⟨1, 0, 0⟩, ⟨1, 0, 0⟩,
   ⟨0, 0, 0⟩, ⟨0, 0, 0⟩, ⟨1, 0, 0⟩, ⟨0, 0, 0⟩, ⟨0, 0, 0⟩,
   ⟨0, 0, 0⟩, ⟨0, 0, 0⟩, ⟨0, 0, 0⟩, ⟨0, 0, 0⟩, ⟨0, 0, 0⟩,
   ⟨0, 0, 0⟩]

/-- A concrete hand whose thumb tip is 0.03 from the index tip with the
index finger not extended: index base and tip both at 0.83, thumb tip at
0.8. -/
noncomputable def pinchNarrowHand : Hand := mkHand
  [⟨0, 0, 0⟩, ⟨0, 0, 0⟩, ⟨0.8, 0, 0⟩, ⟨0, 0, 0⟩, ⟨0.8, 0, 0⟩,
   ⟨0.83, 0, 0⟩, ⟨0, 0, 0⟩, ⟨0, 0, 0⟩, ⟨0.83, 0, 0⟩, ⟨1, 0, 0⟩,
   ⟨0, 0, 0⟩, ⟨0, 0, 0⟩, ⟨0, 0, 0⟩, ⟨0, 0, 0⟩, ⟨0, 0, 0⟩,
   ⟨0, 0, 0⟩, ⟨0, 0, 0⟩, ⟨0, 0, 0⟩, ⟨0, 0, 0⟩, ⟨0, 0, 0⟩,
   ⟨0, 0, 0⟩]

/-- A concrete fully open hand: all five fingertips at distance 1.75 from
the wrist, palm base at distance 1, so the normalized average distance is
exactly the open reference 1.75. -/
noncomputable def openHand : Hand := mkHand
  [⟨0, 0, 0⟩, ⟨0, 0, 0⟩, ⟨0, 0, 0⟩, ⟨0, 0, 0⟩, ⟨1.75, 0, 0⟩,
   ⟨0, 0, 0⟩, ⟨0, 0, 0⟩, ⟨0, 0, 0⟩, ⟨1.75, 0, 0⟩, ⟨1, 0, 0⟩,
   ⟨0, 0, 0⟩, ⟨0, 0, 0⟩, ⟨1.75, 0, 0⟩, ⟨0, 0, 0⟩, ⟨0, 0, 0⟩,
   ⟨0, 0, 0⟩, ⟨1.75, 0, 0⟩, ⟨0, 0, 0⟩, ⟨0, 0, 0⟩, ⟨0, 0, 0⟩,
   ⟨1.75, 0, 0⟩]

/- ---------------------------------------------------------------------
JavaScript-array-level model of the tracker, for malformed landmark
frames.  result.landmarks is a list of hands, each hand a list of
landmark points of unchecked length; reading landmarks[i] beyond the end
of the list yields undefined and the member access that follows throws a
TypeError, which is modelled as Option.none.
--------------------------------------------------------------------- -/

/-- calculateTension (HandTracker.tsx lines 70-115) at the level of
JavaScript array access: each landmark read is partial, everything else
is as in calculateTension. -/
noncomputable def calculateTensionJS (landmarks : List Point3) : Option ℝ := do
  let wrist ← landmarks[0]?
  let thumbTip ← landmarks[4]?
  let indexTip ← landmarks[8]?
  let middleTip ← landmarks[12]?
  let ringTip ← landmarks[16]?
  let pinkyTip ← landmarks[20]?
  let distances := [thumbTip, indexTip, middleTip, ringTip, pinkyTip].map fun tip =>
    Real.sqrt ((wrist.x - tip.x) ^ 2 + (wrist.y - tip.y) ^ 2 + (wrist.z - tip.z) ^ 2)
  let avgDist := distances.foldl (· + ·) 0 / (distances.length : ℝ)
  let middleBase ← landmarks[9]?
  let palm := Real.sqrt ((wrist.x - middleBase.x) ^ 2 + (wrist.y - middleBase.y) ^ 2 +
    (wrist.z - middleBase.z) ^ 2)
  let nd := avgDist / palm
  pure (max 0 (min 1 ((openValue - nd) / (openValue - closedValue))))

/-- isFingerExtended at the level of JavaScript array access. -/
noncomputable def isFingerExtendedJS (landmarks : List Point3) (fingerBase fingerTip : ℕ) :
    Option Prop := do
  let base ← landmarks[fingerBase]?
  let tip ← landmarks[fingerTip]?
  pure (dist3 base tip > 0.04)

/-- detectGesture (HandTracker.tsx lines 135-184) at the level of
JavaScript array access. -/
noncomputable def detectGestureJS (landmarks : List Point3) (tension : ℝ) :
    Option GestureType := do
  let thumbTip ← landmarks[4]?
  let indexTip ← landmarks[8]?
  let middleTip ← landmarks[12]?
  let ringTip ← landmarks[16]?
  let pinkyTip ← landmarks[20]?
  let thumbExt ← isFingerExtendedJS landmarks 2 4
  let indexExt ← isFingerExtendedJS landmarks 5 8
  let middleExt ← isFingerExtendedJS landmarks 9 12
  let ringExt ← isFingerExtendedJS landmarks 13 16
  let pinkyExt ← isFingerExtendedJS landmarks 17 20
  let extendedCount : ℕ :=
    (if thumbExt then 1 else 0) + (if indexExt then 1 else 0) + (if middleExt then 1 else 0) +
      (if ringExt then 1 else 0) + (if pinkyExt then 1 else 0)
  pure (
    if indexExt ∧ middleExt ∧ ¬ringExt ∧ ¬pinkyExt ∧ tension < 0.5 then
      GestureType.peace
    else if indexExt ∧ ¬middleExt ∧ ¬ringExt ∧ ¬pinkyExt ∧ tension > 0.4 then
      GestureType.point
    else if dist3 thumbTip indexTip < 0.08 ∧ tension > 0.6 then
      GestureType.pinch
    else if extendedCount ≥ 4 ∧ tension < 0.3 then
      let avgY := (indexTip.y + middleTip.y + ringTip.y + pinkyTip.y) / 4
      let thumbY := thumbTip.y
      if avgY > thumbY + 0.1 then GestureType.palm_down
      else if avgY < thumbY - 0.1 then GestureType.palm_up
      else GestureType.none
    else GestureType.none)

/-- getGesturePositions (HandTracker.tsx lines 187-209) at the level of
JavaScript array access. -/
noncomputable def getGesturePositionsJS (landmarks : List Point3) (gesture : GestureType) :
    Option GesturePositions :=
  match gesture with
  | GestureType.point => do
      let tip ← landmarks[8]?
      pure { fingerTip := some tip }
  | GestureType.pinch => do
      let thumb ← landmarks[4]?
      let index ← landmarks[8]?
      pure { pinchPosition := some ⟨(thumb.x + index.x) / 2, (thumb.y + index.y) / 2,
                                    (thumb.z + index.z) / 2⟩ }
  | GestureType.peace => do
      let o1 ← landmarks[8]?
      let o2 ← landmarks[12]?
      pure { peaceOrbit1 := some o1, peaceOrbit2 := some o2 }
  | _ => pure {}

/-- processDetections (HandTracker.tsx lines 226-245) at the level of
JavaScript array access: the only validation is that at least one hand is
present; the landmark count of that hand is never checked, so a hand with
too few landmarks is processed and the computation faults
(Option.none). -/
noncomputable def processDetectionsJS (hands : List (List Point3)) : Option HandTrackingResult :=
  if hands.length > 0 then do
    let landmarks ← hands[0]?
    let tension ← calculateTensionJS landmarks
    let gesture ← detectGestureJS landmarks tension
    let gp ← getGesturePositionsJS landmarks gesture
    pure { isDetected := true, tension := tension, gesture := gesture,
           fingerTip := gp.fingerTip, pinchPosition := gp.pinchPosition,
           peaceOrbit1 := gp.peaceOrbit1, peaceOrbit2 := gp.peaceOrbit2 }
  else
    pure { isDetected := false, tension := 0, gesture := GestureType.none }

/- ---------------------------------------------------------------------
ParticleSystem: per-frame hand-data effect, explosion decay, gesture
uniform updates and the vertex-shader position computation.
--------------------------------------------------------------------- -/

/-- The mutable refs of the ParticleSystem component (HandTracker.tsx
lines 358-364): smoothedTensionRef, prevTensionRef, explosionRef and
handDataRef. -/
structure PSState where
  smoothedTension : ℝ
  prevTension : ℝ
  explosion : ℝ
  handDataRef : HandTrackingResult

/-- The initial ref values: useRef(0) three times and a non-detected hand
record. -/
noncomputable def initPSState : PSState :=
  { smoothedTension := 0, prevTension := 0, explosion := 0,
    handDataRef := { isDetected := false, tension := 0, gesture := GestureType.none } }

/-- The hand-data effect of HandTracker.tsx lines 695-718: on a
non-detected record it returns early, leaving every ref unchanged;
otherwise it stores the record in handDataRef, moves smoothedTension
toward 1 - tension with rate 0.12 when the tension change exceeds 0.1 in
magnitude and 0.08 otherwise, sets the explosion impulse to 2.0 when the
tension change exceeds 0.3 in magnitude, and stores the tension in
prevTensionRef. -/
noncomputable def handDataEffect (st : PSState) (hd : HandTrackingResult) : PSState :=
  if hd.isDetected = false then st
  else
    let tension := hd.tension
    let tensionChange := tension - st.prevTension
    let targetVisualTension := 1 - tension
    let lerpFactor := if |tensionChange| > 0.1 then 0.12 else 0.08
    { handDataRef := hd,
      smoothedTension :=
        st.smoothedTension + (targetVisualTension - st.smoothedTension) * lerpFactor,
      explosion := if |tensionChange| > 0.3 then 2.0 else st.explosion,
      prevTension := tension }

/-- Folding the hand-data effect over a sequence of published frames. -/
noncomputable def runFrames (st : PSState) (frames : List HandTrackingResult) : PSState :=
  frames.foldl handDataEffect st

/-- The per-render-frame explosion decay of the animation loop
(HandTracker.tsx lines 586-593): geometric decay by 0.85 while above
0.01, a clamp to exactly 0 when positive but at most 0.01, and no change
at 0. -/
noncomputable def decayStep (e : ℝ) : ℝ :=
  if e > 0.01 then e * 0.85 else if e > 0 then 0 else e

/-- The shader gesture ids of the gestureMap object at HandTracker.tsx
lines 599-606. -/
def gestureMap : GestureType → ℕ
  | GestureType.none => 0
  | GestureType.point => 1
  | GestureType.pinch => 2
  | GestureType.palm_up => 3
  | GestureType.palm_down => 4
  | GestureType.peace => 5

/-- The normalized-camera-space to world-space transform applied when a
gesture anchor is copied into a shader uniform (HandTracker.tsx lines
611-645). -/
noncomputable def toWorld (p : Point3) : Point3 :=
  ⟨(p.x - 0.5) * 4, (0.5 - p.y) * 4, p.z⟩

/-- The gesture-related shader uniforms together with the tension and
explosion uniforms they are combined with in the vertex shader. -/
structure Uniforms where
  uTension : ℝ
  uExplosion : ℝ
  uGesture : ℕ
  uGesturePos : Point3
  uPeacePos1 : Point3
  uPeacePos2 : Point3

/-- The gesture uniform update block of the animation loop
(HandTracker.tsx lines 598-645): uGesture is always rewritten from the
current handDataRef gesture, but each anchor uniform is rewritten only
when the corresponding optional field is present, so an absent anchor
leaves the previously stored (stale) uniform value in place. -/
noncomputable def updateGestureUniforms (u : Uniforms) (hd : HandTrackingResult) : Uniforms :=
  let u1 := { u with uGesture := gestureMap hd.gesture }
  let u2 := match hd.fingerTip with
    | some p => { u1 with uGesturePos := toWorld p }
    | Option.none => u1
  let u3 := match hd.pinchPosition with
    | some p => { u2 with uGesturePos := toWorld p }
    | Option.none => u2
  let u4 := match hd.peaceOrbit1 with
    | some p => { u3 with uPeacePos1 := toWorld p }
    | Option.none => u3
  match hd.peaceOrbit2 with
  | some p => { u4 with uPeacePos2 := toWorld p }
  | Option.none => u4

/-- GLSL fract(sin(n) * 43758.5453), the hash of the vertex shader. -/
noncomputable def glslHash (n : ℝ) : ℝ := Int.fract (Real.sin n * 43758.5453)

/-- GLSL length of a vec3. -/
noncomputable def glslLength (v : Point3) : ℝ := Real.sqrt (v.x ^ 2 + v.y ^ 2 + v.z ^ 2)

/-- GLSL normalize: v divided by its length.  On the zero vector the GLSL
result is undefined, modelled as Option.none. -/
noncomputable def glslNormalize (v : Point3) : Option Point3 :=
  if glslLength v = 0 then Option.none
  else some ⟨v.x / glslLength v, v.y / glslLength v, v.z / glslLength v⟩

/-- GLSL mix(x, y, a) componentwise. -/
noncomputable def glslMix (x y : Point3) (a : ℝ) : Point3 :=
  ⟨x.x * (1 - a) + y.x * a, x.y * (1 - a) + y.y * a, x.z * (1 - a) + y.z * a⟩

/-- The gesture-independent part of the vertex shader position
(HandTracker.tsx lines 387-405): trail lag, hash jitter, breathing,
tension expansion and the explosion displacement along
normalize(targetPos + vec3(0.001)). -/
noncomputable def basePlacement (u : Uniforms) (targetPos : Point3) (uTime trailIdx : ℝ) :
    Option Point3 :=
  let lag := trailIdx * 0.08
  let effectiveTime := uTime - lag
  let noiseVal := glslHash (targetPos.x + targetPos.y * 2.0 + effectiveTime * 0.1) * 0.04
  let breath := Real.sin (effectiveTime * 0.6) * 0.02
  let expansion := u.uTension * 1.8 + 0.3
  let distFromCenter := glslLength targetPos
  let explode := u.uExplosion * 3.0 * (0.5 + distFromCenter * 2.0)
  (glslNormalize (targetPos + ⟨0.001, 0.001, 0.001⟩)).map fun n =>
    (expansion + breath) • targetPos + (0.05 : ℝ) • (⟨noiseVal, noiseVal, noiseVal⟩ : Point3) +
      explode • n

/-- The gesture-specific branch ladder of the vertex shader
(HandTracker.tsx lines 407-438).  The point branch guards its normalize
behind dist > 0.001; the peace branch normalizes the vector to the
nearer anchor with no guard. -/
noncomputable def gestureApply (u : Uniforms) (pos : Point3) : Option Point3 :=
  if u.uGesture = 1 then
    let toFinger := u.uGesturePos - pos
    let dist := glslLength toFinger
    if dist > 0.001 then (glslNormalize toFinger).map fun n => pos + (0.035 : ℝ) • n
    else some pos
  else if u.uGesture = 2 then
    some (glslMix pos u.uGesturePos 0.15)
  else if u.uGesture = 3 then some ⟨pos.x, pos.y + 0.05, pos.z⟩
  else if u.uGesture = 4 then some ⟨pos.x, pos.y - 0.05, pos.z⟩
  else if u.uGesture = 5 then
    let d1 := glslLength (u.uPeacePos1 - pos)
    let d2 := glslLength (u.uPeacePos2 - pos)
    if d1 < d2 then (glslNormalize (u.uPeacePos1 - pos)).map fun n => pos + (0.025 : ℝ) • n
    else (glslNormalize (u.uPeacePos2 - pos)).map fun n => pos + (0.025 : ℝ) • n
  else some pos

/-- The displayed particle position of the vertex shader: base placement
followed by the gesture branch. -/
noncomputable def shaderPos (u : Uniforms) (targetPos : Point3) (uTime trailIdx : ℝ) :
    Option Point3 :=
  (basePlacement u targetPos uTime trailIdx).bind (gestureApply u)

/- ---------------------------------------------------------------------
Concrete states and uniforms used by counterexamples and witnesses.
--------------------------------------------------------------------- -/

/-- A published record claiming a stabilized point gesture whose required
anchor field is absent this frame. -/
noncomputable def hdPointNoAnchor : HandTrackingResult :=
  { isDetected := true, tension := 0.5, gesture := GestureType.point }

/-- Shader uniforms as left by an earlier frame: no gesture active,
tension and explosion uniforms at 0, and a stale anchor value at
(1, 0, 0) in uGesturePos. -/
noncomputable def uStalePrev : Uniforms :=
  { uTension := 0, uExplosion := 0, uGesture := 0, uGesturePos := ⟨1, 0, 0⟩,
    uPeacePos1 := ⟨0, 0, 0⟩, uPeacePos2 := ⟨0, 0, 0⟩ }

/-- Uniforms with the peace gesture active whose first peace anchor sits
exactly at the origin and whose second sits at distance 1 from it. -/
noncomputable def uPeaceAtParticle : Uniforms :=
  { uTension := 0, uExplosion := 0, uGesture := 5, uGesturePos := ⟨0, 0, 0⟩,
    uPeacePos1 := ⟨0, 0, 0⟩, uPeacePos2 := ⟨1, 0, 0⟩ }

/-- Uniforms with the point gesture active and every anchor at the
origin. -/
noncomputable def uPointOrigin : Uniforms :=
  { uTension := 0, uExplosion := 0, uGesture := 1, uGesturePos := ⟨0, 0, 0⟩,
    uPeacePos1 := ⟨0, 0, 0⟩, uPeacePos2 := ⟨0, 0, 0⟩ }

/-- A particle-system state recorded after a detected point-gesture
frame: smoothedTension 0.5 and a point record in handDataRef. -/
noncomputable def stAfterPoint : PSState :=
  { smoothedTension := 0.5, prevTension := 0.7, explosion := 0,
    handDataRef := { isDetected := true, tension := 0.7, gesture := GestureType.point,
                     fingerTip := some ⟨0.5, 0.5, 0⟩ } }

/- ---------------------------------------------------------------------
Helper lemmas: componentwise vector operations, distances of
axis-aligned points, GLSL evaluations.
--------------------------------------------------------------------- -/

lemma Point3_add_def (p q : Point3) : p + q = ⟨p.x + q.x, p.y + q.y, p.z + q.z⟩ := rfl

lemma Point3_sub_def (p q : Point3) : p - q = ⟨p.x - q.x, p.y - q.y, p.z - q.z⟩ := rfl

lemma Point3_smul_def (c : ℝ) (p : Point3) : c • p = ⟨c * p.x, c * p.y, c * p.z⟩ := rfl

lemma sqrt_xdist (w t : ℝ) (h : w ≤ t) :
    Real.sqrt ((w - t) ^ 2 + ((0 : ℝ) - 0) ^ 2 + ((0 : ℝ) - 0) ^ 2) = t - w := by
  rw [show (w - t) ^ 2 + ((0 : ℝ) - 0) ^ 2 + ((0 : ℝ) - 0) ^ 2 = (t - w) ^ 2 by ring]
  exact Real.sqrt_sq (by linarith)

lemma dist3_xpts (a b : ℝ) (h : a ≤ b) :
    dist3 ⟨a, 0, 0⟩ ⟨b, 0, 0⟩ = b - a := by
  unfold dist3
  exact sqrt_xdist a b h

lemma isExt_of (lm : Hand) (b t : Fin 21) (a c : ℝ) (hb : lm b = ⟨a, 0, 0⟩)
    (ht : lm t = ⟨c, 0, 0⟩) (hle : a ≤ c) (h : 0.04 < c - a) : isFingerExtended lm b t := by
  unfold isFingerExtended
  rw [hb, ht, dist3_xpts a c hle]
  linarith

lemma notExt_of (lm : Hand) (b t : Fin 21) (a c : ℝ) (hb : lm b = ⟨a, 0, 0⟩)
    (ht : lm t = ⟨c, 0, 0⟩) (hle : a ≤ c) (h : c - a ≤ 0.04) : ¬ isFingerExtended lm b t := by
  unfold isFingerExtended
  rw [hb, ht, dist3_xpts a c hle]
  exact not_lt.mpr h

lemma glslLength_zero : glslLength ⟨0, 0, 0⟩ = 0 := by
  unfold glslLength
  rw [show (0 : ℝ) ^ 2 + 0 ^ 2 + 0 ^ 2 = 0 by norm_num, Real.sqrt_zero]

lemma glslLength_unitx : glslLength ⟨1, 0, 0⟩ = 1 := by
  unfold glslLength
  rw [show (1 : ℝ) ^ 2 + 0 ^ 2 + 0 ^ 2 = 1 by norm_num, Real.sqrt_one]

lemma glslNormalize_zero : glslNormalize ⟨0, 0, 0⟩ = Option.none := by
  unfold glslNormalize
  rw [if_pos glslLength_zero]

lemma glslNormalize_unitx : glslNormalize ⟨1, 0, 0⟩ = some ⟨1, 0, 0⟩ := by
  unfold glslNormalize
  rw [if_neg (by rw [glslLength_unitx]; norm_num), glslLength_unitx]
  norm_num

/- Evaluation of the concrete hands. -/

lemma fingertipDistances_pinchHand :
    fingertipDistances pinchHand = [0.8, 0.8, 0.8, 0.8, 0.8] := by
  unfold fingertipDistances
  simp only [List.map]
  rw [show pinchHand 0 = (⟨0, 0, 0⟩ : Point3) from rfl,
    show pinchHand 4 = (⟨0.8, 0, 0⟩ : Point3) from rfl,
    show pinchHand 8 = (⟨0.8, 0, 0⟩ : Point3) from rfl,
    show pinchHand 12 = (⟨0.8, 0, 0⟩ : Point3) from rfl,
    show pinchHand 16 = (⟨0.8, 0, 0⟩ : Point3) from rfl,
    show pinchHand 20 = (⟨0.8, 0, 0⟩ : Point3) from rfl]
  simp only [sqrt_xdist 0 0.8 (by norm_num)]
  norm_num

lemma nd_pinchHand : normalizedDist pinchHand = 0.80 := by
  have havg : avgDistance pinchHand = 0.8 := by
    unfold avgDistance
    rw [fingertipDistances_pinchHand]
    simp only [List.foldl, List.length]
    norm_num
  have hpalm : palmSize pinchHand = 1 := by
    unfold palmSize
    rw [show pinchHand 0 = (⟨0, 0, 0⟩ : Point3) from rfl,
      show pinchHand 9 = (⟨1, 0, 0⟩ : Point3) from rfl]
    rw [sqrt_xdist 0 1 (by norm_num)]
    norm_num
  unfold normalizedDist
  rw [havg, hpalm]
  norm_num

lemma calcT_pinchHand : calculateTension pinchHand = 1 := by
  unfold calculateTension openValue closedValue
  rw [nd_pinchHand]
  norm_num

lemma detect_pinchHand : detectGesture pinchHand 1 = GestureType.pinch := by
  have h58 : ¬ isFingerExtended pinchHand 5 8 :=
    notExt_of _ _ _ 0.8 0.8 rfl rfl le_rfl (by norm_num)
  have h48 : dist3 (pinchHand 4) (pinchHand 8) = 0 := by
    rw [show pinchHand 4 = (⟨0.8, 0, 0⟩ : Point3) from rfl,
      show pinchHand 8 = (⟨0.8, 0, 0⟩ : Point3) from rfl, dist3_xpts 0.8 0.8 le_rfl]
    norm_num
  simp only [detectGesture]
  rw [if_neg fun h => h58 h.1, if_neg fun h => h58 h.1,
    if_pos ⟨by rw [h48]; norm_num, by norm_num⟩]

lemma nd_pointHand : normalizedDist pointHand = 0.9 := by
  have hd : fingertipDistances pointHand = [0.8, 0.9, 1, 0.9, 0.9] := by
    unfold fingertipDistances
    simp only [List.map]
    rw [show pointHand 0 = (⟨0, 0, 0⟩ : Point3) from rfl,
      show pointHand 4 = (⟨0.8, 0, 0⟩ : Point3) from rfl,
      show pointHand 8 = (⟨0.9, 0, 0⟩ : Point3) from rfl,
      show pointHand 12 = (⟨1, 0, 0⟩ : Point3) from rfl,
      show pointHand 16 = (⟨0.9, 0, 0⟩ : Point3) from rfl,
      show pointHand 20 = (⟨0.9, 0, 0⟩ : Point3) from rfl]
    rw [sqrt_xdist 0 0.8 (by norm_num), sqrt_xdist 0 0.9 (by norm_num),
      sqrt_xdist 0 1 (by norm_num)]
    norm_num
  have havg : avgDistance pointHand = 0.9 := by
    unfold avgDistance
    rw [hd]
    simp only [List.foldl, List.length]
    norm_num
  have hpalm : palmSize pointHand = 1 := by
    unfold palmSize
    rw [show pointHand 0 = (⟨0, 0, 0⟩ : Point3) from rfl,
      show pointHand 9 = (⟨1, 0, 0⟩ : Point3) from rfl]
    rw [sqrt_xdist 0 1 (by norm_num)]
    norm_num
  unfold normalizedDist
  rw [havg, hpalm]
  norm_num

lemma calcT_pointHand : calculateTension pointHand = 0.85 / 0.95 := by
  unfold calculateTension openValue closedValue
  rw [nd_pointHand]
  norm_num

lemma detect_pointHand : detectGesture pointHand (0.85 / 0.95) = GestureType.point := by
  have i58 : isFingerExtended pointHand 5 8 :=
    isExt_of _ _ _ 0.8 0.9 rfl rfl (by norm_num) (by norm_num)
  have n912 : ¬ isFingerExtended pointHand 9 12 :=
    notExt_of _ _ _ 1 1 rfl rfl le_rfl (by norm_num)
  have n1316 : ¬ isFingerExtended pointHand 13 16 :=
    notExt_of _ _ _ 0.9 0.9 rfl rfl le_rfl (by norm_num)
  have n1720 : ¬ isFingerExtended pointHand 17 20 :=
    notExt_of _ _ _ 0.9 0.9 rfl rfl le_rfl (by norm_num)
  simp only [detectGesture]
  rw [if_neg fun h => n912 h.2.1, if_pos ⟨i58, n912, n1316, n1720, by norm_num⟩]

lemma nd_openHand : normalizedDist openHand = 1.75 := by
  have hd : fingertipDistances openHand = [1.75, 1.75, 1.75, 1.75, 1.75] := by
    unfold fingertipDistances
    simp only [List.map]
    rw [show openHand 0 = (⟨0, 0, 0⟩ : Point3) from rfl,
      show openHand 4 = (⟨1.75, 0, 0⟩ : Point3) from rfl,
      show openHand 8 = (⟨1.75, 0, 0⟩ : Point3) from rfl,
      show openHand 12 = (⟨1.75, 0, 0⟩ : Point3) from rfl,
      show openHand 16 = (⟨1.75, 0, 0⟩ : Point3) from rfl,
      show openHand 20 = (⟨1.75, 0, 0⟩ : Point3) from rfl]
    simp only [sqrt_xdist 0 1.75 (by norm_num)]
    norm_num
  have havg : avgDistance openHand = 1.75 := by
    unfold avgDistance
    rw [hd]
    simp only [List.foldl, List.length]
    norm_num
  have hpalm : palmSize openHand = 1 := by
    unfold palmSize
    rw [show openHand 0 = (⟨0, 0, 0⟩ : Point3) from rfl,
      show openHand 9 = (⟨1, 0, 0⟩ : Point3) from rfl]
    rw [sqrt_xdist 0 1 (by norm_num)]
    norm_num
  unfold normalizedDist
  rw [havg, hpalm]
  norm_num

/- ---------------------------------------------------------------------
Claim theorems.
--------------------------------------------------------------------- -/

/-- Claim C1 (code bug): the tracker publishes the raw gesture of every
frame with no hysteresis at all — the pending-switch refs of lines 18-19
are never consulted — so on the raw sequence pinch, point, pinch, pinch,
pinch the published gesture switches to point after a single
non-matching frame, where the specified stabilizer with run length 3
would never have switched away from pinch. -/
theorem publishedGesture_no_hysteresis :
    publishedGestures [some pinchHand, some pointHand, some pinchHand, some pinchHand,
        some pinchHand] =
      [GestureType.pinch, GestureType.point, GestureType.pinch, GestureType.pinch,
        GestureType.pinch] := by
  have hpin : (processDetections (some pinchHand)).gesture = GestureType.pinch := by
    have h : (processDetections (some pinchHand)).gesture =
        detectGesture pinchHand (calculateTension pinchHand) := rfl
    rw [h, calcT_pinchHand, detect_pinchHand]
  have hpt : (processDetections (some pointHand)).gesture = GestureType.point := by
    have h : (processDetections (some pointHand)).gesture =
        detectGesture pointHand (calculateTension pointHand) := rfl
    rw [h, calcT_pointHand, detect_pointHand]
  simp only [publishedGestures, List.map]
  rw [hpin, hpt]

/-- Claim C5: the tension estimator output always lies in [0, 1]; a
landmark set whose normalized average wrist-to-fingertip distance is the
closed reference 0.80 maps to tension 1, and one at the open reference
1.75 maps to tension 0. -/
theorem calculateTension_range_and_calibration :
    (∀ lm : Hand, palmSize lm ≠ 0 → 0 ≤ calculateTension lm ∧ calculateTension lm ≤ 1) ∧
    (∀ lm : Hand, normalizedDist lm = 0.80 → calculateTension lm = 1) ∧
    (∀ lm : Hand, normalizedDist lm = 1.75 → calculateTension lm = 0) := by
  refine ⟨fun lm _ => ⟨le_max_left _ _, max_le (by norm_num) (min_le_left _ _)⟩,
    fun lm h => ?_, fun lm h => ?_⟩
  · unfold calculateTension openValue closedValue
    rw [h]
    norm_num
  · unfold calculateTension openValue closedValue
    rw [h]
    norm_num

/-- Witness for C5: the concrete closed hand maps to tension 1, the
concrete open hand to tension 0, and the open-hand output is in [0, 1]. -/
theorem calculateTension_range_and_calibration_witness :
    calculateTension pinchHand = 1 ∧ calculateTension openHand = 0 ∧
      (0 ≤ calculateTension openHand ∧ calculateTension openHand ≤ 1) := by
  have hpalm : palmSize openHand = 1 := by
    unfold palmSize
    rw [show openHand 0 = (⟨0, 0, 0⟩ : Point3) from rfl,
      show openHand 9 = (⟨1, 0, 0⟩ : Point3) from rfl]
    rw [sqrt_xdist 0 1 (by norm_num)]
    norm_num
  exact ⟨calculateTension_range_and_calibration.2.1 pinchHand nd_pinchHand,
    calculateTension_range_and_calibration.2.2 openHand nd_openHand,
    calculateTension_range_and_calibration.1 openHand (by rw [hpalm]; norm_num)⟩

/-- Claim C6: the classifier applies its rules in priority order with
first match winning; whenever the peace conditions hold (index and
middle extended, ring and pinky not, tension below 0.5) the result is
peace regardless of any other condition, in particular on any landmark
set also meeting the palm-orientation conditions. -/
theorem detectGesture_peace_first_match (lm : Hand) (tension : ℝ)
    (h1 : isFingerExtended lm 5 8) (h2 : isFingerExtended lm 9 12)
    (h3 : ¬ isFingerExtended lm 13 16) (h4 : ¬ isFingerExtended lm 17 20)
    (h5 : tension < 0.5) :
    detectGesture lm tension = GestureType.peace := by
  simp only [detectGesture]
  rw [if_pos ⟨h1, h2, h3, h4, h5⟩]

/-- Witness for C6: a concrete peace hand at tension 0.3 classifies as
peace. -/
theorem detectGesture_peace_first_match_witness :
    detectGesture peaceHand 0.3 = GestureType.peace :=
  detectGesture_peace_first_match peaceHand 0.3
    (isExt_of _ _ _ 0 0.9 rfl rfl (by norm_num) (by norm_num))
    (isExt_of _ _ _ 1 1.1 rfl rfl (by norm_num) (by norm_num))
    (notExt_of _ _ _ 0 0 rfl rfl le_rfl (by norm_num))
    (notExt_of _ _ _ 0 0 rfl rfl le_rfl (by norm_num))
    (by norm_num)

/-- Counterexample for C9: a landmark set with thumb-index distance
exactly 0.03 and tension 0.8 for which the classifier returns point, not
pinch, because the extended index finger makes the higher-priority
point rule fire first. -/
theorem pinch_scenario_point_preempts_cex :
    dist3 (pointPinchHand 4) (pointPinchHand 8) = 0.03 ∧
    detectGesture pointPinchHand 0.8 = GestureType.point := by
  constructor
  · rw [show pointPinchHand 4 = (⟨0.97, 0, 0⟩ : Point3) from rfl,
      show pointPinchHand 8 = (⟨1, 0, 0⟩ : Point3) from rfl,
      dist3_xpts 0.97 1 (by norm_num)]
    norm_num
  · have i58 : isFingerExtended pointPinchHand 5 8 :=
      isExt_of _ _ _ 0.9 1 rfl rfl (by norm_num) (by norm_num)
    have n912 : ¬ isFingerExtended pointPinchHand 9 12 :=
      notExt_of _ _ _ 1 1 rfl rfl le_rfl (by norm_num)
    have n1316 : ¬ isFingerExtended pointPinchHand 13 16 :=
      notExt_of _ _ _ 0 0 rfl rfl le_rfl (by norm_num)
    have n1720 : ¬ isFingerExtended pointPinchHand 17 20 :=
      notExt_of _ _ _ 0 0 rfl rfl le_rfl (by norm_num)
    simp only [detectGesture]
    rw [if_neg fun h => n912 h.2.1, if_pos ⟨i58, n912, n1316, n1720, by norm_num⟩]

/-- Claim C9 (amended): on a landmark set with thumb-index distance 0.03
and tension 0.8, provided no higher-priority rule fires (the index
finger is not extended, which disables both the peace and the point
rules), the raw gesture is pinch and the pinch anchor is the
componentwise average of the thumb-tip and index-tip landmarks. -/
theorem pinch_when_index_not_extended (lm : Hand)
    (hd : dist3 (lm 4) (lm 8) = 0.03) (hi : ¬ isFingerExtended lm 5 8) :
    detectGesture lm 0.8 = GestureType.pinch ∧
    (getGesturePositions lm GestureType.pinch).pinchPosition =
      some ⟨((lm 4).x + (lm 8).x) / 2, ((lm 4).y + (lm 8).y) / 2,
        ((lm 4).z + (lm 8).z) / 2⟩ := by
  constructor
  · simp only [detectGesture]
    rw [if_neg fun h => hi h.1, if_neg fun h => hi h.1,
      if_pos ⟨by rw [hd]; norm_num, by norm_num⟩]
  · rfl

/-- Witness for C9 (amended): a concrete hand with thumb-index distance
0.03 and retracted index classifies as pinch with the averaged anchor. -/
theorem pinch_when_index_not_extended_witness :
    detectGesture pinchNarrowHand 0.8 = GestureType.pinch ∧
    (getGesturePositions pinchNarrowHand GestureType.pinch).pinchPosition =
      some ⟨((pinchNarrowHand 4).x + (pinchNarrowHand 8).x) / 2,
        ((pinchNarrowHand 4).y + (pinchNarrowHand 8).y) / 2,
        ((pinchNarrowHand 4).z + (pinchNarrowHand 8).z) / 2⟩ :=
  pinch_when_index_not_extended pinchNarrowHand
    (by
      rw [show pinchNarrowHand 4 = (⟨0.8, 0, 0⟩ : Point3) from rfl,
        show pinchNarrowHand 8 = (⟨0.83, 0, 0⟩ : Point3) from rfl,
        dist3_xpts 0.8 0.83 (by norm_num)]
      norm_num)
    (notExt_of _ _ _ 0.83 0.83 rfl rfl le_rfl (by norm_num))

/-- Counterexample for C3: after a detected point-gesture frame, a
no-hand frame publishes the fallback record (tension 0, gesture none),
but the particle-system effect leaves every ref unchanged, so the
gesture uniform input is still the point id 1 and the smoothed tension
is not moved toward the fallback target. -/
theorem noHand_fallback_cex :
    (processDetections Option.none).gesture = GestureType.none ∧
    (processDetections Option.none).tension = 0 ∧
    handDataEffect stAfterPoint (processDetections Option.none) = stAfterPoint ∧
    gestureMap (handDataEffect stAfterPoint
      (processDetections Option.none)).handDataRef.gesture = 1 ∧
    (handDataEffect stAfterPoint (processDetections Option.none)).smoothedTension = 0.5 := by
  have hdet : (processDetections Option.none).isDetected = false := rfl
  refine ⟨rfl, rfl, ?_, ?_, ?_⟩
  · unfold handDataEffect
    rw [if_pos hdet]
  · unfold handDataEffect
    rw [if_pos hdet]
    rfl
  · unfold handDataEffect
    rw [if_pos hdet]
    rfl

/-- Claim C3 (amended): on a no-hand frame the tracker publishes the
fallback record — not detected, tension 0, gesture none, no anchors —
but the fallback reaches only that published record: the particle-system
hand-data effect returns early on any non-detected record, so the
smoothed tension target and the gesture uniform retain the values of the
last detected frame. -/
theorem noHand_fallback_published_only :
    ((processDetections Option.none).isDetected = false ∧
      (processDetections Option.none).tension = 0 ∧
      (processDetections Option.none).gesture = GestureType.none ∧
      (processDetections Option.none).fingerTip = Option.none ∧
      (processDetections Option.none).pinchPosition = Option.none ∧
      (processDetections Option.none).peaceOrbit1 = Option.none ∧
      (processDetections Option.none).peaceOrbit2 = Option.none) ∧
    (∀ (st : PSState) (hd : HandTrackingResult), hd.isDetected = false →
      handDataEffect st hd = st) := by
  refine ⟨⟨rfl, rfl, rfl, rfl, rfl, rfl, rfl⟩, fun st hd h => ?_⟩
  unfold handDataEffect
  rw [if_pos h]

/-- Witness for C3 (amended): the early return applied to the concrete
post-point state and the concrete fallback record. -/
theorem noHand_fallback_published_only_witness :
    handDataEffect stAfterPoint (processDetections Option.none) = stAfterPoint :=
  noHand_fallback_published_only.2 stAfterPoint (processDetections Option.none) rfl

/-- Claim C7: the explosion impulse is set to its full value 2.0 exactly
when the frame-to-frame tension delta exceeds 0.3 in magnitude
(regardless of the current impulse value), never from a delta at or
below 0.3; the per-render-frame decay multiplies by 0.85 while above
0.01, strictly decreases any positive value, clamps any positive value
at or below 0.01 to exactly 0, and keeps 0 at 0. -/
theorem explosion_trigger_and_decay :
    (∀ (st : PSState) (hd : HandTrackingResult), hd.isDetected = true →
      0.3 < |hd.tension - st.prevTension| → (handDataEffect st hd).explosion = 2.0) ∧
    (∀ (st : PSState) (hd : HandTrackingResult), hd.isDetected = true →
      |hd.tension - st.prevTension| ≤ 0.3 → (handDataEffect st hd).explosion = st.explosion) ∧
    (∀ e : ℝ, 0.01 < e → decayStep e = e * 0.85) ∧
    (∀ e : ℝ, 0 < e → decayStep e < e) ∧
    (∀ e : ℝ, 0 < e → e ≤ 0.01 → decayStep e = 0) ∧
    decayStep 0 = 0 := by
  refine ⟨fun st hd hdet htr => ?_, fun st hd hdet hle => ?_, fun e he => ?_,
    fun e he => ?_, fun e h0 hle => ?_, ?_⟩
  · unfold handDataEffect
    rw [if_neg (by rw [hdet]; simp)]
    show (if |hd.tension - st.prevTension| > 0.3 then (2.0 : ℝ) else st.explosion) = 2.0
    rw [if_pos htr]
  · unfold handDataEffect
    rw [if_neg (by rw [hdet]; simp)]
    show (if |hd.tension - st.prevTension| > 0.3 then (2.0 : ℝ) else st.explosion) =
      st.explosion
    rw [if_neg (not_lt.mpr hle)]
  · unfold decayStep
    rw [if_pos he]
  · unfold decayStep
    by_cases h1 : e > 0.01
    · rw [if_pos h1]
      nlinarith
    · rw [if_neg h1, if_pos he]
      exact he
  · unfold decayStep
    rw [if_neg (not_lt.mpr hle), if_pos h0]
  · unfold decayStep
    norm_num

/-- Witness for C7: a delta of 0.9 triggers the full impulse from the
initial state, a delta of 0.1 leaves the impulse untouched, and the
decay halves 2.0 to 1.7, strictly decreases it, and clamps 0.005 to 0. -/
theorem explosion_trigger_and_decay_witness :
    (handDataEffect initPSState
      { isDetected := true, tension := 0.9, gesture := GestureType.none }).explosion = 2.0 ∧
    (handDataEffect stAfterPoint
      { isDetected := true, tension := 0.8, gesture := GestureType.none }).explosion =
      stAfterPoint.explosion ∧
    decayStep 2.0 = 2.0 * 0.85 ∧ decayStep 2.0 < 2.0 ∧ decayStep 0.005 = 0 ∧
    decayStep 0 = 0 := by
  have habs1 : (0.3 : ℝ) <
      |({ isDetected := true, tension := 0.9, gesture := GestureType.none } :
        HandTrackingResult).tension - initPSState.prevTension| := by
    show (0.3 : ℝ) < |(0.9 : ℝ) - 0|
    rw [sub_zero, abs_of_pos (by norm_num : (0 : ℝ) < 0.9)]
    norm_num
  have habs2 : |({ isDetected := true, tension := 0.8, gesture := GestureType.none } :
      HandTrackingResult).tension - stAfterPoint.prevTension| ≤ (0.3 : ℝ) := by
    show |(0.8 : ℝ) - 0.7| ≤ 0.3
    rw [show (0.8 : ℝ) - 0.7 = 0.1 by norm_num, abs_of_pos (by norm_num : (0 : ℝ) < 0.1)]
    norm_num
  exact ⟨explosion_trigger_and_decay.1 initPSState _ rfl habs1,
    explosion_trigger_and_decay.2.1 stAfterPoint _ rfl habs2,
    explosion_trigger_and_decay.2.2.1 2.0 (by norm_num),
    explosion_trigger_and_decay.2.2.2.1 2.0 (by norm_num),
    explosion_trigger_and_decay.2.2.2.2.1 0.005 (by norm_num) (by norm_num),
    explosion_trigger_and_decay.2.2.2.2.2⟩

lemma handDataEffect_smoothed_bounds (st : PSState) (hd : HandTrackingResult)
    (h0 : 0 ≤ st.smoothedTension) (h1 : st.smoothedTension ≤ 1)
    (ht : hd.isDetected = true → 0 ≤ hd.tension ∧ hd.tension ≤ 1) :
    0 ≤ (handDataEffect st hd).smoothedTension ∧
      (handDataEffect st hd).smoothedTension ≤ 1 := by
  unfold handDataEffect
  by_cases hdet : hd.isDetected = false
  · rw [if_pos hdet]
    exact ⟨h0, h1⟩
  · rw [if_neg hdet]
    obtain ⟨ht0, ht1⟩ := ht (by revert hdet; cases hd.isDetected <;> simp)
    show 0 ≤ st.smoothedTension + ((1 - hd.tension) - st.smoothedTension) *
        (if |hd.tension - st.prevTension| > 0.1 then 0.12 else 0.08) ∧
      st.smoothedTension + ((1 - hd.tension) - st.smoothedTension) *
        (if |hd.tension - st.prevTension| > 0.1 then 0.12 else 0.08) ≤ 1
    have hk : (0 : ℝ) ≤ (if |hd.tension - st.prevTension| > 0.1 then (0.12 : ℝ) else 0.08) ∧
        (if |hd.tension - st.prevTension| > 0.1 then (0.12 : ℝ) else 0.08) ≤ 1 := by
      split_ifs <;> norm_num
    constructor
    · nlinarith [hk.1, hk.2]
    · nlinarith [hk.1, hk.2]

lemma runFrames_smoothed_bounds (frames : List HandTrackingResult) :
    ∀ st : PSState, 0 ≤ st.smoothedTension → st.smoothedTension ≤ 1 →
      (∀ f ∈ frames, f.isDetected = true → 0 ≤ f.tension ∧ f.tension ≤ 1) →
      0 ≤ (runFrames st frames).smoothedTension ∧ (runFrames st frames).smoothedTension ≤ 1 := by
  induction frames with
  | nil => exact fun st h0 h1 _ => ⟨h0, h1⟩
  | cons f fs ih =>
      intro st h0 h1 hf
      have hstep := handDataEffect_smoothed_bounds st f h0 h1 (hf f (by simp))
      have : runFrames st (f :: fs) = runFrames (handDataEffect st f) fs := rfl
      rw [this]
      exact ih (handDataEffect st f) hstep.1 hstep.2 fun g hg => hf g (by simp [hg])

/-- Claim C8: starting from the initial smoothed tension 0, for every
sequence of raw frames whose detected tensions lie in [0, 1], the
smoothed tension stays in [0, 1] after every frame; on a detected frame
it moves toward 1 - tension by the rate 0.12 when the tension change
exceeds 0.1 in magnitude and 0.08 otherwise. -/
theorem smoothedTension_invariant :
    (∀ frames : List HandTrackingResult,
      (∀ f ∈ frames, f.isDetected = true → 0 ≤ f.tension ∧ f.tension ≤ 1) →
      0 ≤ (runFrames initPSState frames).smoothedTension ∧
        (runFrames initPSState frames).smoothedTension ≤ 1) ∧
    (∀ (st : PSState) (hd : HandTrackingResult), hd.isDetected = true →
      (handDataEffect st hd).smoothedTension =
        st.smoothedTension + ((1 - hd.tension) - st.smoothedTension) *
          (if |hd.tension - st.prevTension| > 0.1 then 0.12 else 0.08)) := by
  constructor
  · intro frames hf
    exact runFrames_smoothed_bounds frames initPSState (by norm_num [initPSState])
      (by norm_num [initPSState]) hf
  · intro st hd hdet
    unfold handDataEffect
    rw [if_neg (by rw [hdet]; simp)]

/-- Witness for C8: a concrete two-frame run with tensions 0.5 and 0.9
keeps the smoothed tension in [0, 1], and the rate-selection equation at
the initial state with tension 0.5. -/
theorem smoothedTension_invariant_witness :
    (0 ≤ (runFrames initPSState
        [{ isDetected := true, tension := 0.5, gesture := GestureType.none },
         { isDetected := true, tension := 0.9, gesture := GestureType.none }]).smoothedTension ∧
      (runFrames initPSState
        [{ isDetected := true, tension := 0.5, gesture := GestureType.none },
         { isDetected := true, tension := 0.9, gesture := GestureType.none }]).smoothedTension ≤ 1) ∧
    (handDataEffect initPSState
        { isDetected := true, tension := 0.5, gesture := GestureType.none }).smoothedTension =
      initPSState.smoothedTension +
        ((1 - (0.5 : ℝ)) - initPSState.smoothedTension) *
          (if |(0.5 : ℝ) - initPSState.prevTension| > 0.1 then 0.12 else 0.08) :=
  ⟨smoothedTension_invariant.1 _ (by
      intro f hf
      rw [List.mem_cons, List.mem_singleton] at hf
      rcases hf with h | h <;> subst h <;> exact fun _ => by constructor <;> norm_num),
    smoothedTension_invariant.2 initPSState _ rfl⟩

lemma basePlacement_origin (u : Uniforms) (hex : u.uExplosion = 0) :
    basePlacement u ⟨0, 0, 0⟩ 0 0 = some ⟨0, 0, 0⟩ := by
  have hhash : glslHash 0 = 0 := by
    unfold glslHash
    rw [Real.sin_zero, zero_mul, Int.fract_zero]
  have hadd : (⟨0, 0, 0⟩ : Point3) + ⟨0.001, 0.001, 0.001⟩ = (⟨0.001, 0.001, 0.001⟩ : Point3) := by
    rw [Point3_add_def]
    norm_num
  have hlen : glslLength ⟨0.001, 0.001, 0.001⟩ ≠ 0 := by
    unfold glslLength
    exact ne_of_gt (Real.sqrt_pos.mpr (by norm_num))
  unfold basePlacement
  rw [hadd]
  unfold glslNormalize
  rw [if_neg hlen]
  simp only [Option.map_some']
  rw [hex]
  norm_num [Point3_smul_def, Point3_add_def, Point3.mk.injEq, hhash]

lemma gestureApply_stale_point :
    gestureApply (updateGestureUniforms uStalePrev hdPointNoAnchor) ⟨0, 0, 0⟩ =
      some ⟨0.035, 0, 0⟩ := by
  have hg : (updateGestureUniforms uStalePrev hdPointNoAnchor).uGesture = 1 := rfl
  have hpos : (updateGestureUniforms uStalePrev hdPointNoAnchor).uGesturePos = ⟨1, 0, 0⟩ := rfl
  have hsub : (⟨1, 0, 0⟩ : Point3) - ⟨0, 0, 0⟩ = (⟨1, 0, 0⟩ : Point3) := by
    rw [Point3_sub_def]
    norm_num
  simp only [gestureApply, hg, hpos, reduceIte, hsub, glslLength_unitx, glslNormalize_unitx]
  rw [if_pos (by norm_num : (0.001 : ℝ) < 1)]
  simp only [Option.map_some']
  norm_num [Point3_smul_def, Point3_add_def, Point3.mk.injEq]

/-- Counterexample for C2: a frame whose record claims the point gesture
but carries no fingerTip anchor; the uniform update keeps the stale
anchor from an earlier frame and the shader still applies the point
force toward it, so the particle position is not the position computed
under the none gesture. -/
theorem pointGesture_missing_anchor_cex :
    hdPointNoAnchor.gesture = GestureType.point ∧
    hdPointNoAnchor.fingerTip = Option.none ∧
    shaderPos (updateGestureUniforms uStalePrev hdPointNoAnchor) ⟨0, 0, 0⟩ 0 0 ≠
      shaderPos { updateGestureUniforms uStalePrev hdPointNoAnchor with
        uGesture := gestureMap GestureType.none } ⟨0, 0, 0⟩ 0 0 := by
  refine ⟨rfl, rfl, ?_⟩
  have hbase1 : basePlacement (updateGestureUniforms uStalePrev hdPointNoAnchor)
      ⟨0, 0, 0⟩ 0 0 = some ⟨0, 0, 0⟩ := basePlacement_origin _ rfl
  have hbase2 : basePlacement { updateGestureUniforms uStalePrev hdPointNoAnchor with
      uGesture := gestureMap GestureType.none } ⟨0, 0, 0⟩ 0 0 = some ⟨0, 0, 0⟩ :=
    basePlacement_origin _ rfl
  unfold shaderPos
  rw [hbase1, hbase2]
  show (gestureApply _ ⟨0, 0, 0⟩ : Option Point3) ≠ gestureApply _ ⟨0, 0, 0⟩
  rw [gestureApply_stale_point,
    show gestureApply { updateGestureUniforms uStalePrev hdPointNoAnchor with
      uGesture := gestureMap GestureType.none } ⟨0, 0, 0⟩ = some ⟨0, 0, 0⟩ from rfl]
  intro h
  have := Option.some.inj h
  have hx : (0.035 : ℝ) = 0 := congrArg Point3.x this
  norm_num at hx

/-- Claim C2 (amended): when the fingerTip and pinchPosition anchors are
absent from the frame record, the uniform update leaves the previously
stored uGesturePos value in place (stale, initially the origin) while
still setting the gesture uniform from the records gesture, so an
active point gesture keeps applying its force term toward the stale
anchor instead of degrading to the none behavior; no fault occurs. -/
theorem missing_anchor_retains_stale_uniform (u : Uniforms) (hd : HandTrackingResult)
    (hf : hd.fingerTip = Option.none) (hp : hd.pinchPosition = Option.none) :
    (updateGestureUniforms u hd).uGesturePos = u.uGesturePos ∧
    (updateGestureUniforms u hd).uGesture = gestureMap hd.gesture := by
  unfold updateGestureUniforms
  rw [hf, hp]
  cases h1 : hd.peaceOrbit1 <;> cases h2 : hd.peaceOrbit2 <;> exact ⟨rfl, rfl⟩

/-- Witness for C2 (amended): the stale uniforms of the concrete
counterexample frame. -/
theorem missing_anchor_retains_stale_uniform_witness :
    (updateGestureUniforms uStalePrev hdPointNoAnchor).uGesturePos = uStalePrev.uGesturePos ∧
    (updateGestureUniforms uStalePrev hdPointNoAnchor).uGesture =
      gestureMap hdPointNoAnchor.gesture :=
  missing_anchor_retains_stale_uniform uStalePrev hdPointNoAnchor rfl rfl

/-- Claim C10: the peace branch of the force field normalizes the vector
to the nearer anchor with no zero-length guard, so a particle position
exactly at its nearer anchor makes the embedded shader position
undefined, while the point branch, whose normalize sits behind the
dist > 0.001 guard, is total. -/
theorem peace_branch_partial_point_guarded :
    gestureApply uPeaceAtParticle ⟨0, 0, 0⟩ = Option.none ∧
    (∀ (u : Uniforms) (pos : Point3), u.uGesture = 1 →
      (gestureApply u pos).isSome = true) := by
  constructor
  · have hsub0 : (⟨0, 0, 0⟩ : Point3) - ⟨0, 0, 0⟩ = (⟨0, 0, 0⟩ : Point3) := by
      rw [Point3_sub_def]
      norm_num
    have hsub1 : (⟨1, 0, 0⟩ : Point3) - ⟨0, 0, 0⟩ = (⟨1, 0, 0⟩ : Point3) := by
      rw [Point3_sub_def]
      norm_num
    simp only [gestureApply, uPeaceAtParticle, reduceIte, hsub0, hsub1, glslLength_zero,
      glslLength_unitx]
    rw [if_pos (by norm_num : (0 : ℝ) < 1), glslNormalize_zero]
    rfl
  · intro u pos h
    simp only [gestureApply, h, reduceIte]
    by_cases hdist : glslLength (u.uGesturePos - pos) > 0.001
    · rw [if_pos hdist]
      unfold glslNormalize
      rw [if_neg (ne_of_gt (lt_trans (by norm_num : (0 : ℝ) < 0.001) hdist))]
      rfl
    · rw [if_neg hdist]
      rfl

/-- Witness for C10: the point-gesture branch is defined even on a
particle position equal to the anchor (the guard takes the else path). -/
theorem peace_branch_partial_point_guarded_witness :
    (gestureApply uPointOrigin ⟨0, 0, 0⟩).isSome = true :=
  peace_branch_partial_point_guarded.2 uPointOrigin ⟨0, 0, 0⟩ rfl

/-- Counterexample for C4: a frame carrying a malformed 3-landmark hand
passes the only guard (at least one hand present) and the tension
computation faults on the missing landmark 4 (Option.none, the model of
the JavaScript TypeError on an undefined element) instead of the frame
being rejected with the previous stabilized gesture retained; the only
rejecting branch is the empty-hands one, which publishes the no-hand
fallback record. -/
theorem malformed_frame_not_rejected_cex :
    processDetectionsJS [[⟨0, 0, 0⟩, ⟨0, 0, 0⟩, ⟨0, 0, 0⟩]] = Option.none ∧
    processDetectionsJS [] =
      some { isDetected := false, tension := 0, gesture := GestureType.none } :=
  ⟨rfl, rfl⟩

/-- Claim C4 (amended): the tracker performs no landmark validation:
every hand with exactly 3 landmarks is accepted by the hands-present
guard and makes the tension computation fault on the missing landmark 4
rather than being rejected with the previous gesture retained, and the
only rejection path is the empty detection, which publishes the no-hand
fallback. -/
theorem no_landmark_count_validation :
    (∀ landmarks : List Point3, landmarks.length = 3 →
      calculateTensionJS landmarks = Option.none) ∧
    (∀ hands : List (List Point3), hands.length = 0 →
      processDetectionsJS hands =
        some { isDetected := false, tension := 0, gesture := GestureType.none }) := by
  constructor
  · intro lm h
    have h4 : lm[4]? = (Option.none : Option Point3) := List.getElem?_eq_none (by omega)
    unfold calculateTensionJS
    cases h0 : lm[0]? with
    | none => simp [h0, Option.bind]
    | some w => simp [h0, h4, Option.bind]
  · intro hands h
    unfold processDetectionsJS
    rw [if_neg (by omega : ¬ hands.length > 0)]
    rfl

/-- Witness for C4 (amended): the concrete malformed 3-landmark hand and
the empty detection list. -/
theorem no_landmark_count_validation_witness :
    calculateTensionJS [⟨0, 0, 0⟩, ⟨0, 0, 0⟩, ⟨0, 0, 0⟩] = Option.none ∧
    processDetectionsJS [] =
      some { isDetected := false, tension := 0, gesture := GestureType.none } :=
  ⟨no_landmark_count_validation.1 _ rfl, no_landmark_count_validation.2 [] rfl⟩
